import Mathlib

/-!
Verification of the MealAdapt AI-mediation layer and client plumbing.

Shallow embedding of:
* the domain types of `frontend/lib/types.ts` (src/unnamed/part_006);
* the response validator `validate_analysis` of src/mainmeal_analysis.md;
* the saved-recipe overall-safety display of `SavedRecipeCard`
  (src/unnamed/part_005);
* the client network layer `fetchWithTimeout` / `refreshAccessToken` /
  `authenticatedFetch` of `frontend/lib/api.ts` (src/unnamed/part_005);
* the per-endpoint rate limiter (modelled from the spec; only its env-var
  defaults are in the corpus, src/unnamed/part_000);
* the prompt builder `_build_analysis_prompt` of src/mainmeal_analysis.md;
* the custom-restriction editors `addCustomCondition` of
  `AddMemberModal.tsx` and `MemberCard` (src/unnamed/part_004).
-/

namespace MealAdapt

/-! ## Domain types (frontend/lib/types.ts, src/unnamed/part_006) -/

/-- `Role` enum: `Adult`, `Child`, `Baby`. -/
inductive Role where
  | adult
  | child
  | baby
  deriving DecidableEq, Repr

/-- The wire value of a `Role`, as in the TS enum. -/
def Role.value : Role → String
  | .adult => "Adult"
  | .child => "Child"
  | .baby => "Baby"

/-- `ConditionType` enum of frontend/lib/types.ts. -/
inductive ConditionType where
  | diabetes
  | highUricAcid
  | hypertension
  | heartDisease
  | kidneyDisease
  | celiac
  | lactoseIntolerance
  | peanutAllergy
  deriving DecidableEq, Repr

/-- The wire value of a `ConditionType`, as in the TS enum. -/
def ConditionType.value : ConditionType → String
  | .diabetes => "Diabetes"
  | .highUricAcid => "High Uric Acid"
  | .hypertension => "Hypertension"
  | .heartDisease => "Heart Disease"
  | .kidneyDisease => "Kidney Disease"
  | .celiac => "Celiac (Gluten-Free)"
  | .lactoseIntolerance => "Lactose Intolerance"
  | .peanutAllergy => "Peanut Allergy"

/-- `HealthCondition` of frontend/lib/types.ts (the optional free-text
`notes` field is carried as an `Option`). -/
structure HealthCondition where
  type : ConditionType
  enabled : Bool
  notes : Option String
  deriving DecidableEq, Repr

/-- `FamilyMember` of frontend/lib/types.ts.  The optional free-form
`preferences` record is not modelled: no embedded code reads it. -/
structure FamilyMember where
  id : String
  name : String
  avatar : String
  role : Role
  conditions : List HealthCondition
  custom_restrictions : List String
  deriving DecidableEq, Repr

/-- `FamilyProfile` of frontend/lib/types.ts. -/
structure FamilyProfile where
  members : List FamilyMember
  deriving DecidableEq, Repr

/-- The member ids of a profile, in order. -/
def FamilyProfile.memberIds (p : FamilyProfile) : List String :=
  p.members.map (fun m => m.id)

/-- `Substitution` of frontend/lib/types.ts. -/
structure Substitution where
  original : String
  replacement : String
  reason : String
  deriving DecidableEq, Repr

/-- `Adaptation` of frontend/lib/types.ts. -/
structure Adaptation where
  modifications : List String
  substitutions : List Substitution
  preparation_changes : List String
  deriving DecidableEq, Repr

/-- `MemberVerdict` of frontend/lib/types.ts. -/
structure MemberVerdict where
  member_id : String
  member_name : String
  verdict : String
  reasons : List String
  concerns : List String
  adaptations : Option Adaptation
  nutritional_notes : Option String
  deriving DecidableEq, Repr

/-- `RecipeAnalysis` of frontend/lib/types.ts. -/
structure RecipeAnalysis where
  dish_name : String
  base_description : String
  overall_safety : String
  member_verdicts : List MemberVerdict
  general_tips : List String
  deriving DecidableEq, Repr

/-- `SavedRecipe` of frontend/lib/types.ts (`analysis` is optional there). -/
structure SavedRecipe where
  id : String
  dish_name : String
  recipe_text : Option String
  analysis : Option RecipeAnalysis
  is_favorite : Bool
  notes : Option String
  tags : List String
  created_at : Option String
  deriving DecidableEq, Repr

/-! ## Response validation (`validate_analysis`, src/mainmeal_analysis.md
lines 1332-1343)

The Python function receives the parsed model response as an untyped dict.
A raw verdict entry is modelled with `Option` fields (`none` = key absent);
`validate_analysis` reads only the `verdict` key of each entry (plus, for
the completeness discussion, we also carry `member_id` and `member_name`). -/

/-- One entry of the raw `member_verdicts` list of a parsed model response.
Keys the validator never reads are not modelled. -/
structure RawVerdict where
  member_id : Option String
  member_name : Option String
  verdict : Option String
  deriving DecidableEq, Repr

/-- The parsed model response (`analysis: dict`), restricted to the keys
`validate_analysis` reads.  `none` models an absent key. -/
structure RawAnalysis where
  dish_name : Option String
  base_description : Option String
  member_verdicts : Option (List RawVerdict)
  deriving DecidableEq, Repr

/-- `verdict.get('verdict') in ['safe', 'needs_adaptation', 'not_recommended']`:
an absent key (`None`) is not in the list. -/
def allowedVerdict : Option String → Bool
  | some s => s = "safe" || s = "needs_adaptation" || s = "not_recommended"
  | none => false

/-- `validate_analysis` of src/mainmeal_analysis.md: require the three
fields `dish_name`, `base_description`, `member_verdicts` to be present,
then require every entry of `analysis.get('member_verdicts', [])` to carry
an allowed verdict value.  It returns a Bool and never rewrites the data. -/
def validate_analysis (a : RawAnalysis) : Bool :=
  a.dish_name.isSome && a.base_description.isSome && a.member_verdicts.isSome &&
    (a.member_verdicts.getD []).all (fun v => allowedVerdict v.verdict)

/-- The member ids attached to the raw verdict entries, in order
(entries with no `member_id` key are skipped). -/
def RawAnalysis.verdictIds (a : RawAnalysis) : List String :=
  (a.member_verdicts.getD []).filterMap (fun v => v.member_id)

/-- Rewrite every `member_id` of a raw response (used to show the
validator is insensitive to member ids). -/
def mapVerdictIds (f : Option String → Option String) (a : RawAnalysis) : RawAnalysis :=
  { a with member_verdicts :=
      a.member_verdicts.map (fun l => l.map (fun v => { v with member_id := f v.member_id })) }

/-! ## Saved-recipe display (`SavedRecipeCard`, src/unnamed/part_005
lines 187-189) -/

/-- `recipe.analysis?.overall_safety || 'safe'`: the displayed overall
safety of a saved recipe.  A missing analysis, a missing field, or an
empty (JS-falsy) string all fall back to `'safe'`. -/
def savedRecipeOverallSafety (r : SavedRecipe) : String :=
  match r.analysis with
  | none => "safe"
  | some a => if a.overall_safety = "" then "safe" else a.overall_safety

/-! ## Concrete inputs for the validator claims -/

/-- A profile holding one member `m1` (for the completeness discussion). -/
def cx2Profile : FamilyProfile :=
  ⟨[⟨"m1", "Alice", "A", .adult, [], []⟩]⟩

/-- A well-formed raw response whose single verdict names the unknown
member `m2`. -/
def cx2Analysis : RawAnalysis :=
  ⟨some "Plain rice", some "Steamed white rice", some [⟨some "m2", some "Bob", some "safe"⟩]⟩

/-- A raw response whose `member_verdicts` key is absent. -/
def cx3Analysis : RawAnalysis :=
  ⟨some "Plain rice", some "Steamed white rice", none⟩

/-- A saved recipe stored without any analysis. -/
def cx3Recipe : SavedRecipe :=
  ⟨"r1", "Mystery stew", none, none, false, none, [], none⟩

/-- A well-formed raw response with one allowed verdict (witness input). -/
def w1Analysis : RawAnalysis :=
  ⟨some "Plain rice", some "Steamed white rice", some [⟨some "m1", some "Alice", some "safe"⟩]⟩

/-- The single raw verdict of `w1Analysis`. -/
def w1Verdict : RawVerdict :=
  ⟨some "m1", some "Alice", some "safe"⟩

/-! ## Client network layer (`frontend/lib/api.ts`, src/unnamed/part_005)

`fetchWithTimeout` races the underlying `fetch` against a 30s abort timer.
One underlying fetch is modelled by the time at which it would settle and
what it settles with; the abort timer wins whenever the fetch has not
settled strictly before the timeout fires. -/

/-- What one underlying `fetch` settles with if it is not aborted: a
response carrying an HTTP status, or a thrown JS error (identified by its
`name` and `message`, which are what the catch blocks inspect). -/
inductive RawFetch where
  | resp (status : Nat)
  | jsError (name : String) (msg : String)
  deriving DecidableEq, Repr

/-- One underlying `fetch` call: when it settles and with what. -/
structure Attempt where
  duration : Nat
  outcome : RawFetch
  deriving DecidableEq, Repr

/-- The default `timeout` parameter of `fetchWithTimeout` (30000 ms); every
call site of `fetchWithTimeout` in `frontend/lib/api.ts` relies on it. -/
def DEFAULT_FETCH_TIMEOUT_MS : Nat := 30000

/-- `fetchWithTimeout`: if the underlying fetch settles before the abort
timer it returns the response (or rethrows the fetch error after the
`AbortError` name check); otherwise the abort fires, the rejection is an
`AbortError`, and the catch throws `'Request timeout - please try again'`.
Errors are the thrown message strings. -/
def fetchWithTimeout (a : Attempt) (timeout : Nat) : Except String Nat :=
  if a.duration < timeout then
    match a.outcome with
    | .resp s => .ok s
    | .jsError n m =>
      if n = "AbortError" then .error "Request timeout - please try again" else .error m
  else
    .error "Request timeout - please try again"

/-- `s.includes(pat)` of JS, for a nonempty pattern: `splitOn` produces at
least two pieces exactly when the pattern occurs. -/
def containsStr (s pat : String) : Bool :=
  2 ≤ (s.splitOn pat).length

/-- The errors `authenticatedFetch` can throw, by their messages:
`timedOut` = `'Request timed out. Please check your connection and try again.'`,
`network` = `'Network error. Please check your internet connection.'`,
`other` = an error rethrown unchanged. -/
inductive ClientError where
  | timedOut
  | network
  | other (msg : String)
  deriving DecidableEq, Repr

/-- The first catch block of `authenticatedFetch` (lines 740-750): a
message containing `'timeout'` becomes the timed-out error, one containing
`'Failed to fetch'` or `'NetworkError'` becomes the network error,
anything else is rethrown. -/
def mapFirstCatch (msg : String) : ClientError :=
  if containsStr msg "timeout" then .timedOut
  else if containsStr msg "Failed to fetch" || containsStr msg "NetworkError" then .network
  else .other msg

/-- The catch block around the 401-retry (lines 763-768): only the timeout
message is mapped; everything else is rethrown unchanged. -/
def mapRetryCatch (msg : String) : ClientError :=
  if containsStr msg "timeout" then .timedOut else .other msg

/-- The two slots of `localStorage` the token helpers manage
(`mealadapt_token` and `mealadapt_refresh_token`). -/
structure TokenStore where
  token : Option String
  refresh_token : Option String
  deriving DecidableEq, Repr

/-- What one `POST /api/auth/refresh` call settles with: a 2xx carrying the
two new tokens, a non-OK response, or a thrown (network/timeout/parse)
error. -/
inductive RefreshCallOutcome where
  | ok (access : String) (refresh : String)
  | httpError (status : Nat)
  | thrown
  deriving DecidableEq, Repr

/-- The mutable world one logical `authenticatedFetch` call runs in:
the token store, the scripted outcomes of successive underlying requests
to the target URL and of successive refresh calls, plus an observation
log — how many target-URL requests were issued, the `Authorization`
token attached to each, and the backoff waits performed (in ms). -/
structure FetchState where
  tokens : TokenStore
  attempts : List Attempt
  refreshes : List RefreshCallOutcome
  sent : Nat
  usedTokens : List (Option String)
  waits : List Nat
  deriving DecidableEq, Repr

/-- Used when the attempt script is exhausted: a fetch that settles at once
with a generic network rejection (never a response). -/
def defaultAttempt : Attempt := ⟨0, .jsError "TypeError" "Failed to fetch"⟩

/-- Issue one underlying request to the target URL through
`fetchWithTimeout` (with its default timeout), recording the request and
the access token attached to it. -/
def oneRequest (st : FetchState) : Except String Nat × FetchState :=
  (fetchWithTimeout (st.attempts.headD defaultAttempt) DEFAULT_FETCH_TIMEOUT_MS,
   { st with attempts := st.attempts.tail, sent := st.sent + 1,
             usedTokens := st.usedTokens ++ [st.tokens.token] })

/-- `refreshAccessToken` (lines 658-698): with no stored refresh token it
removes all tokens and fails without a network call; otherwise it posts to
the refresh endpoint — a non-OK response or a thrown error removes all
tokens and fails, a success stores both new tokens.  (The
`isRefreshing`-deduplication of concurrent refreshes is concurrency and is
not modelled.) -/
def refreshAccessToken (st : FetchState) : Bool × FetchState :=
  match st.tokens.refresh_token with
  | none => (false, { st with tokens := ⟨none, none⟩ })
  | some _ =>
    match st.refreshes.headD .thrown with
    | .ok access refresh =>
      (true, { st with refreshes := st.refreshes.tail, tokens := ⟨some access, some refresh⟩ })
    | .httpError _ =>
      (false, { st with refreshes := st.refreshes.tail, tokens := ⟨none, none⟩ })
    | .thrown =>
      (false, { st with refreshes := st.refreshes.tail, tokens := ⟨none, none⟩ })

/-- The 401 branch of `authenticatedFetch` (lines 753-770): on a 401,
refresh; on refresh success re-issue the request once with the new token
(mapping only the timeout error in its catch); on refresh failure fall
through with the original 401 response. -/
def handle401 (status : Nat) (st : FetchState) : Except ClientError Nat × FetchState :=
  if status = 401 then
    if (refreshAccessToken st).1 then
      match (oneRequest (refreshAccessToken st).2).1 with
      | .ok s => (.ok s, (oneRequest (refreshAccessToken st).2).2)
      | .error msg => (.error (mapRetryCatch msg), (oneRequest (refreshAccessToken st).2).2)
    else
      (.ok status, (refreshAccessToken st).2)
  else
    (.ok status, st)

/-- One pass of `authenticatedFetch` before the 5xx check: the first
request (with its catch block) followed by the 401 handling. -/
def onePass (st : FetchState) : Except ClientError Nat × FetchState :=
  match (oneRequest st).1 with
  | .error msg => (.error (mapFirstCatch msg), (oneRequest st).2)
  | .ok status => handle401 status (oneRequest st).2

/-- `authenticatedFetch` (lines 726-780), `retries` defaulting to 2 at the
call sites: after the pass, `res.status >= 500 && res.status < 600 &&
retries > 0` waits `1000 * (3 - retries)` ms and recurses with
`retries - 1`; otherwise the response (any status) is returned to the
caller. -/
def authenticatedFetch (retries : Nat) (st : FetchState) : Except ClientError Nat × FetchState :=
  match (onePass st).1 with
  | .error e => (.error e, (onePass st).2)
  | .ok status =>
    match retries with
    | 0 => (.ok status, (onePass st).2)
    | r + 1 =>
      if 500 ≤ status ∧ status < 600 then
        authenticatedFetch r
          { (onePass st).2 with waits := (onePass st).2.waits ++ [1000 * (3 - (r + 1))] }
      else
        (.ok status, (onePass st).2)

/-- "No response of the scripted environment has a 5xx status." -/
def NoServer5xx (l : List Attempt) : Prop :=
  ∀ a ∈ l, ∀ s, a.outcome = RawFetch.resp s → s < 500 ∨ 600 ≤ s

/-! ## Per-endpoint rate limiting

Only the configuration defaults of the limiter are in the corpus
(src/unnamed/part_000 lines 26-30); `backend/app/core/rate_limit.py`
itself is not. -/

/-- The five AI endpoint classes named by the `LLM_LIMIT_*` configuration
variables (src/unnamed/part_000). -/
inductive EndpointKind where
  | analyzeRecipe
  | analyzeIngredientImage
  | suggestRecipes
  | extractIngredients
  | analyzeIngredients
  deriving DecidableEq, Repr

/-- The `LLM_LIMIT_*` defaults of src/unnamed/part_000 lines 26-30. -/
def defaultLimit : EndpointKind → Nat
  | .analyzeRecipe => 50
  | .analyzeIngredientImage => 30
  | .suggestRecipes => 20
  | .extractIngredients => 30
  | .analyzeIngredients => 40

/-- One recorded LLM call: who, which endpoint class, when. -/
structure CallRecord where
  user : String
  endpoint : EndpointKind
  time : Nat
  deriving DecidableEq, Repr

/-- Modelled from the spec: the state of the rolling-window rate limiter
(`backend/app/core/rate_limit.py` is absent from the corpus) — the
timestamps of past calls, keyed by (user, endpoint class). -/
structure RateLimiter where
  calls : List CallRecord
  deriving DecidableEq, Repr

/-- Modelled from the spec: how many calls of this user to this endpoint
class fall inside the rolling window ending `now` (a call at `t` is inside
iff `now < t + window`). -/
def windowCount (rl : RateLimiter) (u : String) (e : EndpointKind) (now window : Nat) : Nat :=
  (rl.calls.filter (fun c => decide (c.user = u ∧ c.endpoint = e ∧ now < c.time + window))).length

/-- Whether an LLM call is admitted or refused with `RateLimited`. -/
inductive LimitDecision where
  | allowed
  | rateLimited
  deriving DecidableEq, Repr

/-- Result of asking the limiter for one call: the decision, the new
limiter state, and how many outbound network calls to the model provider
were made for this request (0 when refused). -/
structure LimiterResult where
  decision : LimitDecision
  state : RateLimiter
  outboundCalls : Nat
  deriving DecidableEq, Repr

/-- Modelled from the spec: admit the call iff strictly fewer than `limit`
calls of this (user, endpoint class) fall inside the rolling window; an
admitted call is recorded and issues exactly one outbound call, a refused
call fails fast with `RateLimited`, leaves the state unchanged and issues
no outbound call. -/
def tryAcquire (rl : RateLimiter) (u : String) (e : EndpointKind) (now window limit : Nat) :
    LimiterResult :=
  if windowCount rl u e now window < limit then
    ⟨.allowed, ⟨⟨u, e, now⟩ :: rl.calls⟩, 1⟩
  else
    ⟨.rateLimited, rl, 0⟩

/-! ## Prompt builder (`_build_analysis_prompt` of
`backend/app/services/ai_service.py`, quoted in src/mainmeal_analysis.md)

The Python code serializes the family members with
`json.dumps(members_info, indent=2)` and interpolates that plus the recipe
text into a fixed template.  The `json.dumps` pretty-printing is
reproduced for the shapes that occur (a list of flat objects whose values
are strings or string lists); `\uXXXX`-escaping of non-ASCII characters is
elided — it does not affect any property proved here. -/

/-- JSON string-literal escaping for one character. -/
def jsonEscapeChar (c : Char) : String :=
  if c = '\\' then "\\\\"
  else if c = '"' then "\\\""
  else if c = '\n' then "\\n"
  else if c = '\t' then "\\t"
  else if c = '\r' then "\\r"
  else String.singleton c

/-- A JSON string literal. -/
def jsonStringLit (s : String) : String :=
  "\"" ++ String.join (s.data.map jsonEscapeChar) ++ "\""

/-- `n` spaces of indentation. -/
def spaces (n : Nat) : String :=
  String.mk (List.replicate n ' ')

/-- `json.dumps` of a list of strings at indentation `ind` with
`indent=2`. -/
def dumpStringArray (l : List String) (ind : Nat) : String :=
  if l.isEmpty then "[]"
  else
    "[\n" ++ String.intercalate ",\n" (l.map (fun s => spaces (ind + 2) ++ jsonStringLit s)) ++
      "\n" ++ spaces ind ++ "]"

/-- One element of the `members_info` list built by
`_build_analysis_prompt` (a Python dict with insertion-ordered keys
`id`, `name`, `role`, `conditions`, `restrictions`). -/
structure MemberInfo where
  id : String
  name : String
  role : String
  conditions : List String
  restrictions : List String
  deriving DecidableEq, Repr

/-- `members_info`: for each member, its id, name, role value, the types of
its enabled conditions, and its custom restrictions. -/
def membersInfo (p : FamilyProfile) : List MemberInfo :=
  p.members.map (fun m =>
    ⟨m.id, m.name, m.role.value,
     (m.conditions.filter (fun c => c.enabled)).map (fun c => c.type.value),
     m.custom_restrictions⟩)

/-- `json.dumps` of one `members_info` element at indentation `ind`. -/
def dumpMemberInfo (mi : MemberInfo) (ind : Nat) : String :=
  "\x7b\n" ++ String.intercalate ",\n"
    [spaces (ind + 2) ++ "\"id\": " ++ jsonStringLit mi.id,
     spaces (ind + 2) ++ "\"name\": " ++ jsonStringLit mi.name,
     spaces (ind + 2) ++ "\"role\": " ++ jsonStringLit mi.role,
     spaces (ind + 2) ++ "\"conditions\": " ++ dumpStringArray mi.conditions (ind + 2),
     spaces (ind + 2) ++ "\"restrictions\": " ++ dumpStringArray mi.restrictions (ind + 2)] ++
    "\n" ++ spaces ind ++ "\x7d"

/-- `json.dumps(members_info, indent=2)`. -/
def dumpMembersInfo (l : List MemberInfo) : String :=
  if l.isEmpty then "[]"
  else
    "[\n" ++ String.intercalate ",\n" (l.map (fun mi => spaces 2 ++ dumpMemberInfo mi 2)) ++ "\n]"

/-- The fixed JSON-schema block of the template (the doubled braces of the
Python f-string render as literal braces). -/
def analysisSchemaBlock : String :=
  String.intercalate "\n"
    ["\x7b",
     "  \"dish_name\": \"Name of the dish\",",
     "  \"base_description\": \"Brief description of the dish and its main components\",",
     "  \"overall_safety\": \"safe|caution|unsafe\",",
     "  \"member_verdicts\": [",
     "    \x7b",
     "      \"member_id\": \"id\",",
     "      \"member_name\": \"name\",",
     "      \"verdict\": \"safe|needs_adaptation|not_recommended\",",
     "      \"reasons\": [\"Specific reasons for this verdict\"],",
     "      \"concerns\": [\"Any safety concerns\"],",
     "      \"adaptations\": \x7b",
     "        \"modifications\": [\"Modification instructions\"],",
     "        \"substitutions\": [",
     "          \x7b",
     "            \"original\": \"ingredient\",",
     "            \"replacement\": \"alternative\",",
     "            \"reason\": \"why this substitution\"",
     "          \x7d",
     "        ],",
     "        \"preparation_changes\": [\"Cooking method changes\"]",
     "      \x7d,",
     "      \"nutritional_notes\": \"Additional nutritional guidance\"",
     "    \x7d",
     "  ],",
     "  \"general_tips\": [\"Tips for cooking this dish for the whole family\"]",
     "\x7d"]

/-- `_build_analysis_prompt(recipe_text, family_profile)`: the template of
src/mainmeal_analysis.md with the recipe text and the serialized
`members_info` interpolated.  It reads nothing but its two arguments — no
randomness, no clock. -/
def buildAnalysisPrompt (recipe_text : String) (profile : FamilyProfile) : String :=
  "Analyze the following recipe for a family with diverse dietary needs.\n\nRECIPE:\n" ++
    recipe_text ++
    "\n\nFAMILY MEMBERS:\n" ++
    dumpMembersInfo (membersInfo profile) ++
    "\n\nProvide a comprehensive analysis in the following JSON format:\n" ++
    analysisSchemaBlock ++
    "\n\nBe specific, practical, and safety-focused. Only respond with valid JSON."

/-! ## Custom restriction editors (`addCustomCondition` of
`AddMemberModal.tsx` and of `MemberCard`, src/unnamed/part_004) -/

/-- The whitespace characters stripped by JS `String.prototype.trim`
(the common ASCII subset; the full Unicode white-space set adds only more
characters of the same kind). -/
def isJsWhitespace (c : Char) : Bool :=
  c == ' ' || c == '\t' || c == '\n' || c == '\r' || c == '\x0b' || c == '\x0c'

/-- Strip leading and trailing whitespace from a character list. -/
def trimChars (l : List Char) : List Char :=
  ((l.dropWhile isJsWhitespace).reverse.dropWhile isJsWhitespace).reverse

/-- `String.prototype.trim`. -/
def jsTrim (s : String) : String :=
  String.mk (trimChars s.data)

namespace AddMemberModal

/-- `addCustomCondition` of `AddMemberModal.tsx` lines 30-36, as a function
of the two pieces of component state it uses (the list of custom conditions
and the text-input value): trim the input; when the trimmed text is
nonempty and not already present, append it and clear the input; otherwise
change nothing. -/
def addCustomCondition (customConditions : List String) (newCustomCondition : String) :
    List String × String :=
  let trimmed := jsTrim newCustomCondition
  if trimmed ≠ "" ∧ trimmed ∉ customConditions then
    (customConditions ++ [trimmed], "")
  else
    (customConditions, newCustomCondition)

end AddMemberModal

namespace MemberCard

/-- `addCustomCondition` of the `MemberCard` editor (src/unnamed/part_004
lines 60-69): identical logic over `member.custom_restrictions` and the
text-input value. -/
def addCustomCondition (customConditions : List String) (newCustomCondition : String) :
    List String × String :=
  let trimmed := jsTrim newCustomCondition
  if trimmed ≠ "" ∧ trimmed ∉ customConditions then
    (customConditions ++ [trimmed], "")
  else
    (customConditions, newCustomCondition)

end MemberCard

/-- The invariant of the `custom_restrictions` sequence: no duplicate
entries, and every entry contains a non-whitespace character (so no entry
is empty or whitespace-only). -/
def RestrictionsInvariant (l : List String) : Prop :=
  l.Nodup ∧ ∀ s ∈ l, ∃ c ∈ s.data, isJsWhitespace c = false

/-! ## Concrete network environments for the invoker claims -/

/-- Environment for the C5 counterexample: the target URL answers 401 and,
after a successful token refresh, 200 — no 5xx anywhere. -/
def cx5State : FetchState :=
  ⟨⟨some "tok0", some "ref0"⟩, [⟨5, .resp 401⟩, ⟨5, .resp 200⟩], [.ok "tok1" "ref1"], 0, [], []⟩

/-- Environment for the C6 counterexample: a 4xx (401) response followed,
after a successful refresh, by a 204. -/
def cx6State : FetchState :=
  ⟨⟨some "atk", some "rtk"⟩, [⟨10, .resp 401⟩, ⟨10, .resp 204⟩], [.ok "atk2" "rtk2"], 0, [], []⟩

/-- Environment whose only response is a 200 (C5 witness). -/
def w5State : FetchState :=
  ⟨⟨some "t", some "r"⟩, [⟨1, .resp 200⟩], [], 0, [], []⟩

/-- Environment whose only response is a 404 (C6 witness). -/
def w6State : FetchState :=
  ⟨⟨some "t", some "r"⟩, [⟨1, .resp 404⟩], [], 0, [], []⟩

/-- 401 response with no stored refresh token (C8 witness, case 1). -/
def w8aState : FetchState :=
  ⟨⟨some "t", none⟩, [⟨1, .resp 401⟩], [], 0, [], []⟩

/-- 401 response, refresh endpoint answers non-OK (C8 witness, case 2). -/
def w8bState : FetchState :=
  ⟨⟨some "t", some "r"⟩, [⟨1, .resp 401⟩], [.httpError 400], 0, [], []⟩

/-- 401 response, refresh succeeds, retry answers 200 (C8 witness, case 3). -/
def w8cState : FetchState :=
  ⟨⟨some "t", some "r"⟩, [⟨1, .resp 401⟩, ⟨1, .resp 200⟩], [.ok "t2" "r2"], 0, [], []⟩

/-- A limiter that has already recorded four calls of user `u` to the
recipe-analysis endpoint inside the window (C7 witness, scenario E of the
spec). -/
def w7Limiter : RateLimiter :=
  ⟨[⟨"u", .analyzeRecipe, 10⟩, ⟨"u", .analyzeRecipe, 20⟩,
    ⟨"u", .analyzeRecipe, 30⟩, ⟨"u", .analyzeRecipe, 40⟩]⟩

/-- A one-member profile with an enabled condition and a custom
restriction (C9 witness). -/
def w9Profile : FamilyProfile :=
  ⟨[⟨"m1", "Alice", "A", .adult, [⟨.peanutAllergy, true, none⟩], ["no shellfish"]⟩]⟩

/-! # Theorems -/

/-- C1: every response accepted by `validate_analysis` carries only verdict
values from the closed set `{safe, needs_adaptation, not_recommended}`;
contrapositively, a response containing any other verdict value (or a
missing one) makes `validate_analysis` return `false` — the validator
returns a Bool over the unmodified data, so the value is never coerced to
a default verdict. -/
theorem accepted_verdict_values_closed (a : RawAnalysis) (v : RawVerdict)
    (hacc : validate_analysis a = true) (hv : v ∈ a.member_verdicts.getD []) :
    v.verdict = some "safe" ∨ v.verdict = some "needs_adaptation" ∨
      v.verdict = some "not_recommended" := by
  unfold validate_analysis at hacc
  simp only [Bool.and_eq_true, List.all_eq_true] at hacc
  have h := hacc.2 v hv
  unfold allowedVerdict at h
  rcases hw : v.verdict with _ | s
  · rw [hw] at h
    exact absurd h (by simp)
  · rw [hw] at h
    simp only [Bool.or_eq_true, decide_eq_true_eq] at h
    rcases h with (h | h) | h
    · exact Or.inl (by rw [h])
    · exact Or.inr (Or.inl (by rw [h]))
    · exact Or.inr (Or.inr (by rw [h]))

/-- Witness for C1 at a concrete accepted response. -/
theorem accepted_verdict_values_closed_witness :
    (validate_analysis w1Analysis = true ∧ w1Verdict ∈ w1Analysis.member_verdicts.getD []) ∧
      (w1Verdict.verdict = some "safe" ∨ w1Verdict.verdict = some "needs_adaptation" ∨
        w1Verdict.verdict = some "not_recommended") :=
  ⟨⟨by decide, by decide⟩,
    accepted_verdict_values_closed w1Analysis w1Verdict (by decide) (by decide)⟩

/-- C2 (amended): `validate_analysis` never compares the verdicts' member
ids with the submitted profile — its verdict is invariant under arbitrary
rewriting of every `member_id` — so a response whose member-id set differs
from the profile's (missing member, unknown id, duplicate id) is not
rejected on that basis. -/
theorem validate_analysis_ignores_member_ids (f : Option String → Option String)
    (a : RawAnalysis) :
    validate_analysis (mapVerdictIds f a) = validate_analysis a := by
  unfold validate_analysis mapVerdictIds
  rcases a with ⟨d, b, mv⟩
  rcases mv with _ | l
  · rfl
  · simp only [Option.map_some', Option.isSome_some, Option.getD_some, List.all_map]
    rfl

/-- C2 counterexample: a response whose only verdict names the member id
`m2`, absent from the submitted profile (which holds exactly `m1`), passes
`validate_analysis` — completeness is not enforced. -/
theorem unknown_member_id_accepted :
    validate_analysis cx2Analysis = true ∧ cx2Profile.memberIds = ["m1"] ∧
      cx2Analysis.verdictIds = ["m2"] :=
  ⟨by decide, by decide, by decide⟩

/-- C3 (amended): a response whose `member_verdicts` key is absent fails
`validate_analysis` (never a default empty-list success); the saved-recipe
card, however, fabricates the default overall-safety value `safe` whenever
the stored analysis is absent. -/
theorem missing_member_verdicts_fail_closed :
    (∀ a : RawAnalysis, a.member_verdicts = none → validate_analysis a = false) ∧
    (∀ r : SavedRecipe, r.analysis = none → savedRecipeOverallSafety r = "safe") := by
  constructor
  · intro a h
    unfold validate_analysis
    rw [h]
    simp
  · intro r h
    unfold savedRecipeOverallSafety
    rw [h]

/-- Witness for C3 at concrete inputs. -/
theorem missing_member_verdicts_fail_closed_witness :
    validate_analysis cx3Analysis = false ∧ savedRecipeOverallSafety cx3Recipe = "safe" :=
  ⟨missing_member_verdicts_fail_closed.1 cx3Analysis rfl,
   missing_member_verdicts_fail_closed.2 cx3Recipe rfl⟩

/-- C3 counterexample: the saved-recipe card's overall-safety computation
(`recipe.analysis?.overall_safety || 'safe'`) yields the fabricated
default `safe` for a recipe stored without any analysis. -/
theorem display_defaults_overall_safety_to_safe :
    cx3Recipe.analysis = none ∧ savedRecipeOverallSafety cx3Recipe = "safe" :=
  ⟨rfl, rfl⟩

/-- C4: `fetchWithTimeout` aborts a call that has not settled within the
timeout and fails it with the timeout error; a call that settles in time
has its response returned unchanged; the default timeout is 30000 ms. -/
theorem fetchWithTimeout_policy (a : Attempt) (t : Nat) :
    (t ≤ a.duration →
      fetchWithTimeout a t = .error "Request timeout - please try again") ∧
    (∀ s, a.duration < t → a.outcome = RawFetch.resp s → fetchWithTimeout a t = .ok s) ∧
    DEFAULT_FETCH_TIMEOUT_MS = 30000 := by
  refine ⟨?_, ?_, rfl⟩
  · intro h
    unfold fetchWithTimeout
    rw [if_neg (by omega)]
  · intro s h1 h2
    unfold fetchWithTimeout
    rw [if_pos h1, h2]

/-- Witness for C4: a fetch settling at 31s is timed out; one settling at
5 ms returns its 200 unchanged. -/
theorem fetchWithTimeout_policy_witness :
    (fetchWithTimeout ⟨31000, RawFetch.resp 200⟩ 30000 =
        .error "Request timeout - please try again") ∧
    fetchWithTimeout ⟨5, RawFetch.resp 200⟩ 30000 = .ok 200 :=
  ⟨(fetchWithTimeout_policy ⟨31000, RawFetch.resp 200⟩ 30000).1 (by decide),
   (fetchWithTimeout_policy ⟨5, RawFetch.resp 200⟩ 30000).2.1 200 (by decide) rfl⟩

/-- C7 (modelled from the spec; limiter defaults from the source): once the
rolling window of a (user, endpoint class) holds `limit` calls, a further
call fails fast with `RateLimited`, leaves the limiter unchanged and makes
no outbound network call; under the limit a call is admitted with exactly
one outbound call; calls of other users or endpoint classes never count
against the window; and the five endpoint classes carry the configured
default limits 50/30/20/30/40. -/
theorem rate_limiter_fails_fast (rl : RateLimiter) (u : String) (e : EndpointKind)
    (now window limit : Nat) :
    (limit ≤ windowCount rl u e now window →
      tryAcquire rl u e now window limit = ⟨.rateLimited, rl, 0⟩) ∧
    (windowCount rl u e now window < limit →
      (tryAcquire rl u e now window limit).decision = .allowed ∧
        (tryAcquire rl u e now window limit).outboundCalls = 1) ∧
    (∀ c : CallRecord, c.user ≠ u ∨ c.endpoint ≠ e →
      windowCount ⟨c :: rl.calls⟩ u e now window = windowCount rl u e now window) ∧
    (defaultLimit .analyzeRecipe = 50 ∧ defaultLimit .analyzeIngredientImage = 30 ∧
      defaultLimit .suggestRecipes = 20 ∧ defaultLimit .extractIngredients = 30 ∧
      defaultLimit .analyzeIngredients = 40) := by
  refine ⟨?_, ?_, ?_, rfl, rfl, rfl, rfl, rfl⟩
  · intro h
    unfold tryAcquire
    rw [if_neg (by omega)]
  · intro h
    unfold tryAcquire
    rw [if_pos h]
    exact ⟨rfl, rfl⟩
  · intro c hc
    have hp : decide (c.user = u ∧ c.endpoint = e ∧ now < c.time + window) = false := by
      simp only [decide_eq_false_iff_not]
      rintro ⟨h1, h2, -⟩
      rcases hc with hc | hc
      · exact hc h1
      · exact hc h2
    unfold windowCount
    rw [List.filter_cons, hp]
    simp

/-- Witness for C7: scenario E of the spec — the fifth call of a
user+endpoint inside the window when the limit is 4 is refused with no
outbound call and no state change. -/
theorem rate_limiter_fails_fast_witness :
    4 ≤ windowCount w7Limiter "u" .analyzeRecipe 50 60000 ∧
      tryAcquire w7Limiter "u" .analyzeRecipe 50 60000 4 = ⟨.rateLimited, w7Limiter, 0⟩ :=
  ⟨by decide,
   (rate_limiter_fails_fast w7Limiter "u" .analyzeRecipe 50 60000 4).1 (by decide)⟩

/-- C9: the prompt builder is deterministic — two calls with identical
(request, profile) input produce identical output; the embedded
`buildAnalysisPrompt` reads nothing but its arguments (no randomness, no
clock). -/
theorem prompt_builder_deterministic (r₁ r₂ : String) (p₁ p₂ : FamilyProfile)
    (hr : r₁ = r₂) (hp : p₁ = p₂) :
    buildAnalysisPrompt r₁ p₁ = buildAnalysisPrompt r₂ p₂ := by
  rw [hr, hp]

/-- Witness for C9 at a concrete request and profile. -/
theorem prompt_builder_deterministic_witness :
    buildAnalysisPrompt "plain rice" w9Profile = buildAnalysisPrompt "plain rice" w9Profile :=
  prompt_builder_deterministic "plain rice" "plain rice" w9Profile w9Profile rfl rfl

/-- The first element left by `dropWhile` does not satisfy the predicate. -/
lemma dropWhile_head_not (p : Char → Bool) :
    ∀ (l : List Char) (x : Char) (xs : List Char), l.dropWhile p = x :: xs → p x = false := by
  intro l
  induction l with
  | nil =>
    intro x xs h
    simp at h
  | cons a t ih =>
    intro x xs h
    rw [List.dropWhile_cons] at h
    by_cases hp : p a
    · rw [if_pos hp] at h
      exact ih x xs h
    · rw [if_neg hp] at h
      injection h with h1 _
      subst h1
      simpa using hp

/-- A nonempty trimmed string contains a non-whitespace character. -/
lemma trimChars_has_solid_char (l : List Char) (h : trimChars l ≠ []) :
    ∃ c ∈ trimChars l, isJsWhitespace c = false := by
  unfold trimChars at h ⊢
  rcases heq : (l.dropWhile isJsWhitespace).reverse.dropWhile isJsWhitespace with _ | ⟨x, xs⟩
  · rw [heq] at h
    simp at h
  · exact ⟨x, List.mem_reverse.mpr (List.mem_cons_self x xs),
      dropWhile_head_not isJsWhitespace _ x xs heq⟩

/-- Adding a custom restriction preserves the restrictions invariant
(common body of the two `addCustomCondition` editors). -/
lemma addCustomCondition_preserves (l : List String) (input : String)
    (h : RestrictionsInvariant l) :
    RestrictionsInvariant (AddMemberModal.addCustomCondition l input).1 := by
  unfold AddMemberModal.addCustomCondition
  by_cases hc : jsTrim input ≠ "" ∧ jsTrim input ∉ l
  · rw [if_pos hc]
    obtain ⟨hne, hnotin⟩ := hc
    constructor
    · rw [List.nodup_append]
      exact ⟨h.1, List.nodup_singleton _, by simpa [List.disjoint_singleton] using hnotin⟩
    · intro s hs
      rcases List.mem_append.mp hs with hs | hs
      · exact h.2 s hs
      · have hseq : s = jsTrim input := by simpa using hs
        subst hseq
        have hdata : trimChars input.data ≠ [] := by
          intro hh
          apply hne
          unfold jsTrim
          rw [hh]
        exact trimChars_has_solid_char input.data hdata
  · rw [if_neg hc]
    exact h

/-- C10: both custom-restriction editors (the add-member modal and the
member-card editor) preserve the invariant that `custom_restrictions`
holds no duplicates and no empty or whitespace-only entry: input is
trimmed, blank input is rejected, and an entry already present is not
added again. -/
theorem custom_restrictions_invariant_preserved (l : List String) (input : String)
    (h : RestrictionsInvariant l) :
    RestrictionsInvariant (AddMemberModal.addCustomCondition l input).1 ∧
      RestrictionsInvariant (MemberCard.addCustomCondition l input).1 :=
  ⟨addCustomCondition_preserves l input h, addCustomCondition_preserves l input h⟩

/-- Witness for C10: starting from the singleton list `nuts`, adding the
padded input ` gluten ` keeps the invariant in both editors. -/
theorem custom_restrictions_invariant_preserved_witness :
    RestrictionsInvariant ["nuts"] ∧
      (RestrictionsInvariant (AddMemberModal.addCustomCondition ["nuts"] " gluten ").1 ∧
        RestrictionsInvariant (MemberCard.addCustomCondition ["nuts"] " gluten ").1) :=
  ⟨by unfold RestrictionsInvariant; decide,
   custom_restrictions_invariant_preserved ["nuts"] " gluten "
     (by unfold RestrictionsInvariant; decide)⟩

/-- C6 (amended): a 4xx response other than 401 is never retried —
`authenticatedFetch` returns it at once after the single request, with no
backoff wait, no refresh-call consumption and no token change; the caller
surfaces the non-OK response as an error.  (A 401 is the exception: it
triggers the silent-renewal retry, see the C8 theorem and the C6
counterexample.) -/
theorem non401_4xx_not_retried (st : FetchState) (a : Attempt) (rest : List Attempt) (s : Nat)
    (hatt : st.attempts = a :: rest) (hdur : a.duration < 30000)
    (hout : a.outcome = RawFetch.resp s)
    (h4a : 400 ≤ s) (h4b : s < 500) (hn : s ≠ 401) :
    authenticatedFetch 2 st =
      (.ok s, { st with
                  attempts := rest
                  sent := st.sent + 1
                  usedTokens := st.usedTokens ++ [st.tokens.token] }) := by
  have h5 : ¬(500 ≤ s ∧ s < 600) := by omega
  unfold authenticatedFetch onePass oneRequest fetchWithTimeout handle401
  rw [hatt]
  simp [DEFAULT_FETCH_TIMEOUT_MS, hdur, hout, hn, h5]

/-- Witness for C6 at a concrete 404 environment. -/
theorem non401_4xx_not_retried_witness :
    authenticatedFetch 2 w6State =
      (.ok 404, { w6State with
                    attempts := []
                    sent := w6State.sent + 1
                    usedTokens := w6State.usedTokens ++ [w6State.tokens.token] }) :=
  non401_4xx_not_retried w6State ⟨1, .resp 404⟩ [] 404 rfl (by decide) rfl (by decide)
    (by decide) (by decide)

/-- C6 counterexample: the first response is a 401 (a 4xx), the token
refresh succeeds, and a second underlying request for the same logical
call is sent — contradicting "no second request is ever sent for a 4xx". -/
theorem second_request_sent_after_401 :
    cx6State.attempts.head? = some ⟨10, .resp 401⟩ ∧
      (authenticatedFetch 2 cx6State).2.sent = 2 ∧
      (authenticatedFetch 2 cx6State).1 = .ok 204 :=
  ⟨rfl, rfl, rfl⟩

/-- C8: on a 401 the client performs silent renewal.  With no stored
refresh token, renewal fails without a refresh call, both tokens are
removed, and the original 401 is returned after the single request.  With
a stored refresh token, a non-OK refresh response or a thrown refresh
error likewise removes both tokens and returns the original 401 without a
retry.  When renewal succeeds, both new tokens are stored and the original
request is retried exactly once, carrying the new access token; its
response is returned. -/
theorem silent_renewal_on_401 (st : FetchState) (a : Attempt) (rest : List Attempt)
    (hatt : st.attempts = a :: rest) (hdur : a.duration < 30000)
    (hout : a.outcome = RawFetch.resp 401) :
    (st.tokens.refresh_token = none →
      authenticatedFetch 2 st =
        (.ok 401, { st with
                      attempts := rest
                      sent := st.sent + 1
                      usedTokens := st.usedTokens ++ [st.tokens.token]
                      tokens := ⟨none, none⟩ })) ∧
    (∀ rt code refRest, st.tokens.refresh_token = some rt →
      st.refreshes = RefreshCallOutcome.httpError code :: refRest →
      authenticatedFetch 2 st =
        (.ok 401, { st with
                      attempts := rest
                      sent := st.sent + 1
                      usedTokens := st.usedTokens ++ [st.tokens.token]
                      tokens := ⟨none, none⟩
                      refreshes := refRest })) ∧
    (∀ rt refRest, st.tokens.refresh_token = some rt →
      st.refreshes = RefreshCallOutcome.thrown :: refRest →
      authenticatedFetch 2 st =
        (.ok 401, { st with
                      attempts := rest
                      sent := st.sent + 1
                      usedTokens := st.usedTokens ++ [st.tokens.token]
                      tokens := ⟨none, none⟩
                      refreshes := refRest })) ∧
    (∀ rt acc ref refRest a₂ rest₂ s₂, st.tokens.refresh_token = some rt →
      st.refreshes = RefreshCallOutcome.ok acc ref :: refRest →
      rest = a₂ :: rest₂ → a₂.duration < 30000 → a₂.outcome = RawFetch.resp s₂ →
      ¬(500 ≤ s₂ ∧ s₂ < 600) →
      authenticatedFetch 2 st =
        (.ok s₂, { st with
                     attempts := rest₂
                     sent := st.sent + 2
                     usedTokens := st.usedTokens ++ [st.tokens.token, some acc]
                     tokens := ⟨some acc, some ref⟩
                     refreshes := refRest })) := by
  refine ⟨?_, ?_, ?_, ?_⟩
  · intro h0
    unfold authenticatedFetch onePass oneRequest fetchWithTimeout handle401 refreshAccessToken
    rw [hatt]
    simp [DEFAULT_FETCH_TIMEOUT_MS, hdur, hout, h0]
  · intro rt code refRest h0 hr
    unfold authenticatedFetch onePass oneRequest fetchWithTimeout handle401 refreshAccessToken
    rw [hatt]
    simp [DEFAULT_FETCH_TIMEOUT_MS, hdur, hout, h0, hr]
  · intro rt refRest h0 hr
    unfold authenticatedFetch onePass oneRequest fetchWithTimeout handle401 refreshAccessToken
    rw [hatt]
    simp [DEFAULT_FETCH_TIMEOUT_MS, hdur, hout, h0, hr]
  · intro rt acc ref refRest a₂ rest₂ s₂ h0 hr hrest hdur₂ hout₂ h5
    unfold authenticatedFetch onePass oneRequest fetchWithTimeout handle401 refreshAccessToken
    rw [hatt]
    simp [DEFAULT_FETCH_TIMEOUT_MS, hdur, hout, h0, hr, hrest, hdur₂, hout₂, h5]
    unfold oneRequest fetchWithTimeout
    simp [DEFAULT_FETCH_TIMEOUT_MS, hdur₂, hout₂, h5]

/-- Witness for C8 at the three concrete 401 environments. -/
theorem silent_renewal_on_401_witness :
    (authenticatedFetch 2 w8aState =
      (.ok 401, { w8aState with
                    attempts := []
                    sent := w8aState.sent + 1
                    usedTokens := w8aState.usedTokens ++ [w8aState.tokens.token]
                    tokens := ⟨none, none⟩ })) ∧
    (authenticatedFetch 2 w8bState =
      (.ok 401, { w8bState with
                    attempts := []
                    sent := w8bState.sent + 1
                    usedTokens := w8bState.usedTokens ++ [w8bState.tokens.token]
                    tokens := ⟨none, none⟩
                    refreshes := [] })) ∧
    (authenticatedFetch 2 w8cState =
      (.ok 200, { w8cState with
                    attempts := []
                    sent := w8cState.sent + 2
                    usedTokens := w8cState.usedTokens ++ [w8cState.tokens.token, some "t2"]
                    tokens := ⟨some "t2", some "r2"⟩
                    refreshes := [] })) :=
  ⟨(silent_renewal_on_401 w8aState ⟨1, .resp 401⟩ [] rfl (by decide) rfl).1 rfl,
   (silent_renewal_on_401 w8bState ⟨1, .resp 401⟩ [] rfl (by decide) rfl).2.1 "r" 400 [] rfl rfl,
   (silent_renewal_on_401 w8cState ⟨1, .resp 401⟩ [⟨1, .resp 200⟩] rfl (by decide) rfl).2.2.2
     "r" "t2" "r2" [] ⟨1, .resp 200⟩ [] 200 rfl rfl rfl (by decide) rfl (by omega)⟩

/-- The refresh call touches only the token store and the refresh script:
attempts, request count, wait log and token log are unchanged. -/
lemma refreshAccessToken_state (st : FetchState) :
    (refreshAccessToken st).2.attempts = st.attempts ∧
    (refreshAccessToken st).2.sent = st.sent ∧
    (refreshAccessToken st).2.waits = st.waits := by
  unfold refreshAccessToken
  rcases hrt : st.tokens.refresh_token with _ | rt
  · exact ⟨rfl, rfl, rfl⟩
  · rcases hh : st.refreshes.headD .thrown with ⟨acc, ref⟩ | code | _
    · exact ⟨rfl, rfl, rfl⟩
    · exact ⟨rfl, rfl, rfl⟩
    · exact ⟨rfl, rfl, rfl⟩

/-- `oneRequest` leaves the wait log untouched. -/
lemma oneRequest_waits (st : FetchState) : (oneRequest st).2.waits = st.waits := rfl

/-- `oneRequest` issues exactly one request. -/
lemma oneRequest_sent (st : FetchState) : (oneRequest st).2.sent = st.sent + 1 := rfl

/-- `oneRequest` consumes the head of the attempt script. -/
lemma oneRequest_attempts (st : FetchState) :
    (oneRequest st).2.attempts = st.attempts.tail := rfl

/-- The 401 handler never waits and issues at most one extra request. -/
lemma handle401_waits_sent (s : Nat) (st : FetchState) :
    (handle401 s st).2.waits = st.waits ∧ (handle401 s st).2.sent ≤ st.sent + 1 := by
  obtain ⟨ha2, hs2, hw2⟩ := refreshAccessToken_state st
  unfold handle401
  by_cases h : s = 401
  · rw [if_pos h]
    by_cases hb : (refreshAccessToken st).1 = true
    · rw [if_pos hb]
      rcases h3 : (oneRequest (refreshAccessToken st).2).1 with msg2 | s2
      · exact ⟨by simp [oneRequest_waits, hw2], by simp [oneRequest_sent, hs2]⟩
      · exact ⟨by simp [oneRequest_waits, hw2], by simp [oneRequest_sent, hs2]⟩
    · rw [if_neg hb]
      refine ⟨hw2, ?_⟩
      show (refreshAccessToken st).2.sent ≤ st.sent + 1
      omega
  · rw [if_neg h]
    refine ⟨rfl, ?_⟩
    show st.sent ≤ st.sent + 1
    omega

/-- `onePass` never touches the backoff-wait log. -/
lemma onePass_waits (st : FetchState) : (onePass st).2.waits = st.waits := by
  unfold onePass
  rcases h1 : (oneRequest st).1 with msg | s1
  · exact oneRequest_waits st
  · show (handle401 s1 (oneRequest st).2).2.waits = st.waits
    rw [(handle401_waits_sent s1 (oneRequest st).2).1, oneRequest_waits]

/-- One pass issues at most two underlying requests. -/
lemma onePass_sent_le (st : FetchState) : (onePass st).2.sent ≤ st.sent + 2 := by
  unfold onePass
  rcases h1 : (oneRequest st).1 with msg | s1
  · show (oneRequest st).2.sent ≤ st.sent + 2
    have h3 := oneRequest_sent st
    omega
  · show (handle401 s1 (oneRequest st).2).2.sent ≤ st.sent + 2
    have h2 := (handle401_waits_sent s1 (oneRequest st).2).2
    have h3 := oneRequest_sent st
    omega

/-- A successful `fetchWithTimeout` only ever returns the status its
attempt settles with. -/
lemma fetchWithTimeout_ok (a : Attempt) (t s : Nat) (h : fetchWithTimeout a t = .ok s) :
    a.outcome = RawFetch.resp s := by
  unfold fetchWithTimeout at h
  by_cases hd : a.duration < t
  · rw [if_pos hd] at h
    rcases ho : a.outcome with s' | ⟨n, m⟩
    · rw [ho] at h
      have h2 : (Except.ok s' : Except String Nat) = Except.ok s := h
      injection h2 with h3
      rw [h3]
    · rw [ho] at h
      have h2 : (if n = "AbortError" then
          (Except.error "Request timeout - please try again" : Except String Nat)
        else Except.error m) = Except.ok s := h
      by_cases hn : n = "AbortError"
      · rw [if_pos hn] at h2
        exact Except.noConfusion h2
      · rw [if_neg hn] at h2
        exact Except.noConfusion h2
  · rw [if_neg hd] at h
    exact Except.noConfusion h

/-- A status returned by `oneRequest` comes from one of the scripted
attempts. -/
lemma oneRequest_ok_status (st : FetchState) (s : Nat) (h : (oneRequest st).1 = .ok s) :
    ∃ a ∈ st.attempts, a.outcome = RawFetch.resp s := by
  rcases hl : st.attempts with _ | ⟨a, rest⟩
  · unfold oneRequest at h
    rw [hl] at h
    simp [fetchWithTimeout, defaultAttempt, DEFAULT_FETCH_TIMEOUT_MS] at h
  · refine ⟨a, List.mem_cons_self a rest, ?_⟩
    unfold oneRequest at h
    rw [hl] at h
    simp only [List.headD_cons] at h
    exact fetchWithTimeout_ok a _ s h

/-- If the scripted environment serves no 5xx, `onePass` cannot produce a
5xx status. -/
lemma onePass_ok_status (st : FetchState) (s : Nat) (h : (onePass st).1 = .ok s)
    (hns : NoServer5xx st.attempts) : s < 500 ∨ 600 ≤ s := by
  unfold onePass at h
  rcases h1 : (oneRequest st).1 with msg | s1
  · rw [h1] at h
    have h'' : (Except.error (mapFirstCatch msg) : Except ClientError Nat) = Except.ok s := h
    cases h''
  · rw [h1] at h
    have h' : (handle401 s1 (oneRequest st).2).1 = Except.ok s := h
    unfold handle401 at h'
    by_cases h401 : s1 = 401
    · rw [if_pos h401] at h'
      by_cases hb : (refreshAccessToken (oneRequest st).2).1 = true
      · rw [if_pos hb] at h'
        rcases h3 : (oneRequest (refreshAccessToken (oneRequest st).2).2).1 with msg2 | s2
        · rw [h3] at h'
          have h'' : (Except.error (mapRetryCatch msg2) : Except ClientError Nat) =
              Except.ok s := h'
          cases h''
        · rw [h3] at h'
          have h'' : (Except.ok s2 : Except ClientError Nat) = Except.ok s := h'
          injection h'' with hss
          subst hss
          have hok : (oneRequest (refreshAccessToken (oneRequest st).2).2).1 =
              Except.ok s2 := h3
          obtain ⟨a, ha, hares⟩ :=
            oneRequest_ok_status (refreshAccessToken (oneRequest st).2).2 s2 hok
          rw [(refreshAccessToken_state (oneRequest st).2).1, oneRequest_attempts] at ha
          exact hns a (List.mem_of_mem_tail ha) s2 hares
      · rw [if_neg hb] at h'
        have h'' : (Except.ok s1 : Except ClientError Nat) = Except.ok s := h'
        injection h'' with hss
        omega
    · rw [if_neg h401] at h'
      have h'' : (Except.ok s1 : Except ClientError Nat) = Except.ok s := h'
      injection h'' with hss
      subst hss
      obtain ⟨a, ha, hares⟩ := oneRequest_ok_status st s1 h1
      exact hns a ha s1 hares

/-- Without a 5xx response no backoff retry fires, whatever the retry
budget. -/
lemma authenticatedFetch_no5xx_waits (retries : Nat) (st : FetchState)
    (hns : NoServer5xx st.attempts) :
    (authenticatedFetch retries st).2.waits = st.waits := by
  unfold authenticatedFetch
  rcases h1 : (onePass st).1 with e | s
  · show (onePass st).2.waits = st.waits
    exact onePass_waits st
  · rcases retries with _ | rr
    · show (onePass st).2.waits = st.waits
      exact onePass_waits st
    · have hs := onePass_ok_status st s h1 hns
      show (if 500 ≤ s ∧ s < 600 then
          authenticatedFetch rr
            { (onePass st).2 with waits := (onePass st).2.waits ++ [1000 * (3 - (rr + 1))] }
        else (Except.ok s, (onePass st).2)).2.waits = st.waits
      rw [if_neg (by omega)]
      exact onePass_waits st

/-- `authenticatedFetch` with an empty retry budget performs no backoff
wait. -/
lemma authenticatedFetch_zero_waits (st : FetchState) :
    (authenticatedFetch 0 st).2.waits = st.waits := by
  unfold authenticatedFetch
  rcases h1 : (onePass st).1 with e | s
  · show (onePass st).2.waits = st.waits
    exact onePass_waits st
  · show (onePass st).2.waits = st.waits
    exact onePass_waits st

/-- With one remaining retry the backoff log grows by a prefix of
`[2000]`. -/
lemma authenticatedFetch_one_waits (st : FetchState) :
    ∃ k ≤ 1, (authenticatedFetch 1 st).2.waits = st.waits ++ List.take k [2000] := by
  unfold authenticatedFetch
  rcases h1 : (onePass st).1 with e | s
  · exact ⟨0, by omega, by simp [onePass_waits]⟩
  · show ∃ k ≤ 1, (if 500 ≤ s ∧ s < 600 then
        authenticatedFetch 0
          { (onePass st).2 with waits := (onePass st).2.waits ++ [2000] }
      else (Except.ok s, (onePass st).2)).2.waits = st.waits ++ List.take k [2000]
    by_cases h5 : 500 ≤ s ∧ s < 600
    · rw [if_pos h5]
      refine ⟨1, by omega, ?_⟩
      rw [authenticatedFetch_zero_waits]
      simp [onePass_waits]
    · rw [if_neg h5]
      exact ⟨0, by omega, by simp [onePass_waits]⟩

/-- With the default budget of two retries the backoff log grows by a
prefix of `[1000, 2000]` — at most two backoff waits, of 1s then 2s. -/
lemma authenticatedFetch_two_waits (st : FetchState) :
    ∃ k ≤ 2, (authenticatedFetch 2 st).2.waits = st.waits ++ List.take k [1000, 2000] := by
  unfold authenticatedFetch
  rcases h1 : (onePass st).1 with e | s
  · exact ⟨0, by omega, by simp [onePass_waits]⟩
  · show ∃ k ≤ 2, (if 500 ≤ s ∧ s < 600 then
        authenticatedFetch 1
          { (onePass st).2 with waits := (onePass st).2.waits ++ [1000] }
      else (Except.ok s, (onePass st).2)).2.waits = st.waits ++ List.take k [1000, 2000]
    by_cases h5 : 500 ≤ s ∧ s < 600
    · rw [if_pos h5]
      obtain ⟨k, hk, hkeq⟩ := authenticatedFetch_one_waits
        { (onePass st).2 with waits := (onePass st).2.waits ++ [1000] }
      refine ⟨k + 1, by omega, ?_⟩
      rw [hkeq]
      rcases k with _ | k1
      · simp [onePass_waits]
      · have hk10 : k1 = 0 := by omega
        subst hk10
        simp [onePass_waits]
    · rw [if_neg h5]
      exact ⟨0, by omega, by simp [onePass_waits]⟩

/-- Each pass issues at most two requests, so a budget of `retries`
bounds the total at `2 * (retries + 1)`. -/
lemma authenticatedFetch_sent_le (retries : Nat) : ∀ st : FetchState,
    (authenticatedFetch retries st).2.sent ≤ st.sent + 2 * (retries + 1) := by
  induction retries with
  | zero =>
    intro st
    unfold authenticatedFetch
    rcases h1 : (onePass st).1 with e | s
    · show (onePass st).2.sent ≤ st.sent + 2 * (0 + 1)
      have := onePass_sent_le st
      omega
    · show (onePass st).2.sent ≤ st.sent + 2 * (0 + 1)
      have := onePass_sent_le st
      omega
  | succ rr ih =>
    intro st
    unfold authenticatedFetch
    rcases h1 : (onePass st).1 with e | s
    · show (onePass st).2.sent ≤ st.sent + 2 * (rr + 1 + 1)
      have := onePass_sent_le st
      omega
    · show (if 500 ≤ s ∧ s < 600 then
          authenticatedFetch rr
            { (onePass st).2 with waits := (onePass st).2.waits ++ [1000 * (3 - (rr + 1))] }
        else (Except.ok s, (onePass st).2)).2.sent ≤ st.sent + 2 * (rr + 1 + 1)
      by_cases h5 : 500 ≤ s ∧ s < 600
      · rw [if_pos h5]
        have hi := ih
          { (onePass st).2 with waits := (onePass st).2.waits ++ [1000 * (3 - (rr + 1))] }
        have hup : ({ (onePass st).2 with
            waits := (onePass st).2.waits ++ [1000 * (3 - (rr + 1))] } : FetchState).sent =
            (onePass st).2.sent := rfl
        have hp := onePass_sent_le st
        omega
      · rw [if_neg h5]
        show (onePass st).2.sent ≤ st.sent + 2 * (rr + 1 + 1)
        have := onePass_sent_le st
        omega

/-- C5 (amended): under the default budget of 2 retries the backoff waits
form a prefix of `[1000, 2000]` ms — so at most two backoff retries
(three passes), with waits of 1s then 2s; a backoff retry fires only after
a 5xx response (no 5xx from the server ⇒ no backoff wait at all); and,
since each pass may additionally re-issue the request once after a
401-refresh, at most six underlying requests are sent in total. -/
theorem backoff_retry_discipline (st : FetchState) :
    (∃ k ≤ 2, (authenticatedFetch 2 st).2.waits = st.waits ++ List.take k [1000, 2000]) ∧
    (authenticatedFetch 2 st).2.sent ≤ st.sent + 6 ∧
    (NoServer5xx st.attempts → (authenticatedFetch 2 st).2.waits = st.waits) :=
  ⟨authenticatedFetch_two_waits st,
   by have := authenticatedFetch_sent_le 2 st; omega,
   fun hns => authenticatedFetch_no5xx_waits 2 st hns⟩

/-- Witness for C5 at a concrete 200-only environment. -/
theorem backoff_retry_discipline_witness :
    (∃ k ≤ 2, (authenticatedFetch 2 w5State).2.waits =
        w5State.waits ++ List.take k [1000, 2000]) ∧
      (authenticatedFetch 2 w5State).2.sent ≤ w5State.sent + 6 ∧
      (authenticatedFetch 2 w5State).2.waits = w5State.waits :=
  ⟨(backoff_retry_discipline w5State).1, (backoff_retry_discipline w5State).2.1,
   (backoff_retry_discipline w5State).2.2 (by
      intro a ha s hs
      simp [w5State] at ha
      subst ha
      simp at hs
      omega)⟩

/-- C5 counterexample: the server answers 401 then (after a successful
refresh) 200 — no 5xx anywhere — yet two underlying attempts are made for
the one logical call: a retry happened for a non-5xx failure, and the
"at most 3 attempts, only on 5xx" accounting does not hold as stated. -/
theorem retry_after_non5xx_status :
    cx5State.attempts = [⟨5, RawFetch.resp 401⟩, ⟨5, RawFetch.resp 200⟩] ∧
      (authenticatedFetch 2 cx5State).2.sent = 2 ∧
      (authenticatedFetch 2 cx5State).1 = .ok 200 :=
  ⟨rfl, rfl, rfl⟩

end MealAdapt
